import Mathlib

/-!
Verification of the DNS reconciliation logic of `src/commands/dns.js`
(web-redirects CLI).

The handler in `src/commands/dns.js` classifies the zone's live DNS records
against the records required by the current Page Rules, reports whether the
requirement is met, and (after an interactive choice) deletes/creates
records.  The helper functions it imports (`hasDNSRecord`,
`hasConflictingDNSRecord`, `buildRequiredDNSRecordsForPagerules`,
`convertRedirectToPageRule`, `convertPageRulesToRedirects`) live in
`src/lib/shared.js`, which is not part of the provided sources; those are
modelled from the specification, as marked on each definition.
-/

namespace WebRedirects

/-- A DNS record as handled by the CLI: `{type, name, content, ttl, proxied}`.
`ttl` is a number, with the provider's sentinel value `1` meaning
"automatic". -/
structure DNSRecord where
  type : String
  name : String
  content : String
  ttl : Nat
  proxied : Bool
deriving DecidableEq, Repr

/-- Modelled from the spec: `hasDNSRecord(required, liveRecord)` (defined in
`src/lib/shared.js`, which is missing from the sources) is true iff
`required` contains a record with the same `(type, name)` and the same
`content` and `proxied` flag; TTL is not compared. -/
def hasDNSRecord (required : List DNSRecord) (live : DNSRecord) : Bool :=
  required.any (fun r =>
    r.type == live.type && r.name == live.name
      && r.content == live.content && r.proxied == live.proxied)

/-- Modelled from the spec: `hasConflictingDNSRecord(required, liveRecord)`
(defined in `src/lib/shared.js`, which is missing from the sources) is true
iff `required` contains a record with the same `(type, name)` but a
different `content` or `proxied` flag. -/
def hasConflictingDNSRecord (required : List DNSRecord) (live : DNSRecord) : Bool :=
  required.any (fun r =>
    r.type == live.type && r.name == live.name
      && (r.content != live.content || r.proxied != live.proxied))

/-- The three buckets built by the handler's classification loop
(`src/commands/dns.js` lines 70–82): `satisfying` is the handler's
`properly_proxied` array, `conflicting` is its `conflicts` array, and
`unrelated` are the records that fall into the final `else` branch (the
handler only renders those, but they form the third bucket of the
partition). -/
structure Classification where
  satisfying : List DNSRecord
  conflicting : List DNSRecord
  unrelated : List DNSRecord
deriving DecidableEq, Repr

/-- The handler's classification loop (`dns_records.forEach` at
`src/commands/dns.js` lines 70–82): each live record goes through
`if hasDNSRecord … else if hasConflictingDNSRecord … else …`, landing in
exactly one bucket, in input order — i.e. each bucket is the sublist of
live records passing its branch condition (the `else if` / `else` branches
run only when the earlier conditions failed, hence the negations). -/
def classify (required live : List DNSRecord) : Classification where
  satisfying := live.filter (fun l => hasDNSRecord required l)
  conflicting := live.filter (fun l =>
    !hasDNSRecord required l && hasConflictingDNSRecord required l)
  unrelated := live.filter (fun l =>
    !hasDNSRecord required l && !hasConflictingDNSRecord required l)

/-- The handler's "requirements met" condition: line 88 of
`src/commands/dns.js` takes the failure branch when
`properly_proxied.length === 0 || conflicts.length > 0`, so the success
("Congrats") branch runs exactly when at least one live record satisfies
some required record and no live record conflicts. -/
def fullyMet (c : Classification) : Bool :=
  !c.satisfying.isEmpty && c.conflicting.isEmpty

/-- The user's answer to the `whichApproach` prompt
(`src/commands/dns.js` lines 94–103): replace all, replace only the
required ones, or do nothing. -/
inductive ApproachChoice
  | all
  | required
  | skip
deriving DecidableEq, Repr

/-- A remediation plan: the records the handler passes to
`deleteTheseDNSRecords` and to `createTheseDNSRecords`. -/
structure Plan where
  deletions : List DNSRecord
  creations : List DNSRecord
deriving DecidableEq, Repr

/-- The `switch (answers.whichApproach)` of `src/commands/dns.js`
lines 104–122: `'all'` deletes every live record and creates every required
record; `'required'` deletes the `conflicts` bucket and creates every
required record; the `default` (skip) branch performs no mutation. -/
def remediationPlan (liveRecords conflicts requiredRecords : List DNSRecord) :
    ApproachChoice → Plan
  | .all => ⟨liveRecords, requiredRecords⟩
  | .required => ⟨conflicts, requiredRecords⟩
  | .skip => ⟨[], []⟩

/-- The record mutations the handler issues, as a function of the fetched
records and the user's prompt answers (`src/commands/dns.js` lines 64–142):
with live records present it classifies and, only when the requirement is
not met, runs `remediationPlan` on the chosen approach; with no live
records it offers to create the required records behind a yes/no
confirmation. -/
def handlerMutations (required live : List DNSRecord)
    (choice : ApproachChoice) (confirmCreateIntent : Bool) : Plan :=
  if live.length > 0 then
    if (classify required live).satisfying.isEmpty
        || !(classify required live).conflicting.isEmpty then
      remediationPlan live (classify required live).conflicting required choice
    else
      ⟨[], []⟩
  else
    if confirmCreateIntent then ⟨[], required⟩ else ⟨[], []⟩

/-- Modelled from the spec: the per-requirement "missing" notion used in
Scenario A — a required record is missing when no live record matches it on
`(type, name, content, proxied)` (the same comparison `hasDNSRecord`
performs, with the record lists swapped). -/
def missingRecords (required live : List DNSRecord) : List DNSRecord :=
  required.filter (fun r => !(hasDNSRecord live r))

/-! ### Bucket membership -/

theorem mem_satisfying_iff (required live : List DNSRecord) (l : DNSRecord) :
    l ∈ (classify required live).satisfying ↔
      l ∈ live ∧ hasDNSRecord required l = true := by
  simp [classify, List.mem_filter]

theorem mem_conflicting_iff (required live : List DNSRecord) (l : DNSRecord) :
    l ∈ (classify required live).conflicting ↔
      l ∈ live ∧ hasDNSRecord required l = false
        ∧ hasConflictingDNSRecord required l = true := by
  simp [classify, List.mem_filter, Bool.and_eq_true]

theorem mem_unrelated_iff (required live : List DNSRecord) (l : DNSRecord) :
    l ∈ (classify required live).unrelated ↔
      l ∈ live ∧ hasDNSRecord required l = false
        ∧ hasConflictingDNSRecord required l = false := by
  simp [classify, List.mem_filter, Bool.and_eq_true]

theorem classify_buckets_perm (required live : List DNSRecord) :
    ((classify required live).satisfying ++ (classify required live).conflicting
      ++ (classify required live).unrelated).Perm live := by
  induction live with
  | nil => simp [classify]
  | cons x ls ih =>
    simp only [classify, List.filter_cons] at ih ⊢
    by_cases h1 : hasDNSRecord required x = true
    · simp only [h1, Bool.not_true, Bool.false_and, if_true, if_false,
        Bool.false_eq_true, reduceIte, List.cons_append]
      exact ih.cons x
    · rw [Bool.not_eq_true] at h1
      by_cases h2 : hasConflictingDNSRecord required x = true
      · simp only [h1, h2, Bool.not_false, Bool.true_and, Bool.not_true,
          Bool.false_eq_true, reduceIte, if_true]
        rw [List.append_assoc] at ih ⊢
        exact List.perm_middle.trans (ih.cons x)
      · rw [Bool.not_eq_true] at h2
        simp only [h1, h2, Bool.not_false, Bool.true_and,
          Bool.false_eq_true, reduceIte]
        exact List.perm_middle.trans (ih.cons x)

theorem no_key_in_required_not_matching (required : List DNSRecord)
    (l : DNSRecord)
    (h : ∀ r ∈ required, ¬(r.type = l.type ∧ r.name = l.name)) :
    hasDNSRecord required l = false
      ∧ hasConflictingDNSRecord required l = false := by
  constructor
  · rw [← Bool.not_eq_true, hasDNSRecord, List.any_eq_true]
    rintro ⟨r, hr, hp⟩
    simp only [Bool.and_eq_true, beq_iff_eq] at hp
    exact h r hr ⟨hp.1.1.1, hp.1.1.2⟩
  · rw [← Bool.not_eq_true, hasConflictingDNSRecord, List.any_eq_true]
    rintro ⟨r, hr, hp⟩
    simp only [Bool.and_eq_true, beq_iff_eq] at hp
    exact h r hr ⟨hp.1.1, hp.1.2⟩

/-! ### Predicate characterisations -/

theorem hasDNSRecord_eq_true_iff (required : List DNSRecord) (l : DNSRecord) :
    hasDNSRecord required l = true ↔
      ∃ r ∈ required, r.type = l.type ∧ r.name = l.name
        ∧ r.content = l.content ∧ r.proxied = l.proxied := by
  simp [hasDNSRecord, List.any_eq_true, Bool.and_eq_true, beq_iff_eq, and_assoc]

theorem hasConflictingDNSRecord_eq_true_iff (required : List DNSRecord)
    (l : DNSRecord) :
    hasConflictingDNSRecord required l = true ↔
      ∃ r ∈ required, r.type = l.type ∧ r.name = l.name
        ∧ (r.content ≠ l.content ∨ r.proxied ≠ l.proxied) := by
  simp [hasConflictingDNSRecord, List.any_eq_true, Bool.and_eq_true,
    Bool.or_eq_true, bne_iff_ne, beq_iff_eq, and_assoc]

/-- On a required set with pairwise-distinct `(type, name)` keys (as the
requirement deriver produces), a live record cannot both match and conflict:
both predicates demand a required record in the same `(type, name)` slot,
and there is at most one. -/
theorem not_conflicting_of_matching (required : List DNSRecord) (l : DNSRecord)
    (huniq : required.Pairwise (fun a b => ¬(a.type = b.type ∧ a.name = b.name)))
    (hm : hasDNSRecord required l = true) :
    hasConflictingDNSRecord required l = false := by
  obtain ⟨r, hr, ht, hn, hc, hp⟩ := (hasDNSRecord_eq_true_iff required l).mp hm
  rw [← Bool.not_eq_true]
  intro hconf
  obtain ⟨r', hr', ht', hn', hne⟩ :=
    (hasConflictingDNSRecord_eq_true_iff required l).mp hconf
  have hrne : r ≠ r' := by
    rintro rfl
    rcases hne with h | h
    · exact h hc
    · exact h hp
  have hsymm : Symmetric (fun a b : DNSRecord =>
      ¬(a.type = b.type ∧ a.name = b.name)) := by
    intro a b hab hba
    exact hab ⟨hba.1.symm, hba.2.symm⟩
  exact (huniq.forall hsymm hr hr' hrne) ⟨ht.trans ht'.symm, hn.trans hn'.symm⟩

theorem fullyMet_eq_true_iff (c : Classification) :
    fullyMet c = true ↔ c.satisfying ≠ [] ∧ c.conflicting = [] := by
  simp [fullyMet, List.isEmpty_iff]

/-! ### Concrete records used as test inputs -/

def recWWW : DNSRecord :=
  ⟨"CNAME", "www.example.com", "example.com", 1, true⟩

def recAPI : DNSRecord :=
  ⟨"CNAME", "api.example.com", "example.com", 1, true⟩

def recOldTarget : DNSRecord :=
  ⟨"CNAME", "www.example.com", "old-target.com", 1, true⟩

def recMX : DNSRecord :=
  ⟨"MX", "example.com", "mail.example.com", 3600, false⟩

/-! ### Claims -/

/-- C1 (counterexample): with `required = [recWWW, recAPI]` and a single
live record matching only `recWWW`, the handler's condition at line 88
reports the requirements as met (`fullyMet = true`) even though the
required record `recAPI` has no matching live record (it is in the missing
set), so `fullyMet` is NOT "every required record has a satisfying live
record and no conflicts": one satisfied required record suffices. -/
theorem fullyMet_not_all_required_counterexample :
    fullyMet (classify [recWWW, recAPI] [recWWW]) = true
      ∧ hasDNSRecord [recWWW] recAPI = false
      ∧ missingRecords [recWWW, recAPI] [recWWW] = [recAPI] := by
  decide

/-- C1 (amended): for a required set with pairwise-distinct `(type, name)`
keys, the handler reports the requirements met iff AT LEAST ONE live record
matches some required record and no live record conflicts with a required
record (the code checks `properly_proxied.length === 0 || conflicts.length
> 0`, not that every required record is matched). -/
theorem fullyMet_iff_some_satisfying_and_no_conflicts
    (required live : List DNSRecord)
    (huniq : required.Pairwise (fun a b => ¬(a.type = b.type ∧ a.name = b.name))) :
    fullyMet (classify required live) = true ↔
      (∃ l ∈ live, hasDNSRecord required l = true)
        ∧ (∀ l ∈ live, hasConflictingDNSRecord required l = false) := by
  rw [fullyMet_eq_true_iff]
  constructor
  · rintro ⟨hs, hc⟩
    obtain ⟨l, hl⟩ := List.exists_mem_of_ne_nil _ hs
    obtain ⟨hlive, hmatch⟩ := (mem_satisfying_iff required live l).mp hl
    refine ⟨⟨l, hlive, hmatch⟩, ?_⟩
    intro x hx
    by_cases hm : hasDNSRecord required x = true
    · exact not_conflicting_of_matching required x huniq hm
    · rw [← Bool.not_eq_true]
      intro hbad
      have : x ∈ (classify required live).conflicting :=
        (mem_conflicting_iff required live x).mpr
          ⟨hx, Bool.not_eq_true _ ▸ hm, hbad⟩
      rw [hc] at this
      exact absurd this (List.not_mem_nil x)
  · rintro ⟨⟨l, hl, hmatch⟩, hnoconf⟩
    constructor
    · intro hnil
      have : l ∈ (classify required live).satisfying :=
        (mem_satisfying_iff required live l).mpr ⟨hl, hmatch⟩
      rw [hnil] at this
      exact absurd this (List.not_mem_nil l)
    · rw [List.eq_nil_iff_forall_not_mem]
      intro x hx
      obtain ⟨hxl, _, hxc⟩ := (mem_conflicting_iff required live x).mp hx
      rw [hnoconf x hxl] at hxc
      exact Bool.false_ne_true hxc

/-- C1 witness: the amended characterisation applied at
`required = live = [recWWW]`. -/
theorem fullyMet_iff_some_satisfying_and_no_conflicts_witness :
    fullyMet (classify [recWWW] [recWWW]) = true ↔
      (∃ l ∈ [recWWW], hasDNSRecord [recWWW] l = true)
        ∧ (∀ l ∈ [recWWW], hasConflictingDNSRecord [recWWW] l = false) :=
  fullyMet_iff_some_satisfying_and_no_conflicts [recWWW] [recWWW] (by decide)

/-- C2: classification is a total partition — the three buckets together
are a permutation of the live records, every live record lands in exactly
one bucket, and a live record whose `(type, name)` appears nowhere in the
required set always lands in `unrelated`. -/
theorem classify_partition_total (required live : List DNSRecord) :
    (((classify required live).satisfying ++ (classify required live).conflicting
        ++ (classify required live).unrelated).Perm live)
    ∧ (∀ l ∈ live,
        (l ∈ (classify required live).satisfying
            ∧ l ∉ (classify required live).conflicting
            ∧ l ∉ (classify required live).unrelated)
        ∨ (l ∉ (classify required live).satisfying
            ∧ l ∈ (classify required live).conflicting
            ∧ l ∉ (classify required live).unrelated)
        ∨ (l ∉ (classify required live).satisfying
            ∧ l ∉ (classify required live).conflicting
            ∧ l ∈ (classify required live).unrelated))
    ∧ (∀ l ∈ live, (∀ r ∈ required, ¬(r.type = l.type ∧ r.name = l.name)) →
        l ∈ (classify required live).unrelated
          ∧ l ∉ (classify required live).satisfying
          ∧ l ∉ (classify required live).conflicting) := by
  refine ⟨classify_buckets_perm required live, ?_, ?_⟩
  · intro l hl
    by_cases h1 : hasDNSRecord required l = true
    · left
      simp [mem_satisfying_iff, mem_conflicting_iff, mem_unrelated_iff, hl, h1]
    · rw [Bool.not_eq_true] at h1
      by_cases h2 : hasConflictingDNSRecord required l = true
      · right; left
        simp [mem_satisfying_iff, mem_conflicting_iff, mem_unrelated_iff,
          hl, h1, h2]
      · rw [Bool.not_eq_true] at h2
        right; right
        simp [mem_satisfying_iff, mem_conflicting_iff, mem_unrelated_iff,
          hl, h1, h2]
  · intro l hl hkey
    obtain ⟨hm, hc⟩ := no_key_in_required_not_matching required l hkey
    exact ⟨(mem_unrelated_iff required live l).mpr ⟨hl, hm, hc⟩,
      by simp [mem_satisfying_iff, hm],
      by simp [mem_conflicting_iff, hc]⟩

/-- C2 witness: partition applied at `required = [recWWW]`,
`live = [recMX]`; the MX record's `(type, name)` is not in the required
set, so it is unrelated. -/
theorem classify_partition_total_witness :
    (((classify [recWWW] [recMX]).satisfying
        ++ (classify [recWWW] [recMX]).conflicting
        ++ (classify [recWWW] [recMX]).unrelated).Perm [recMX])
    ∧ (recMX ∈ (classify [recWWW] [recMX]).unrelated
        ∧ recMX ∉ (classify [recWWW] [recMX]).satisfying
        ∧ recMX ∉ (classify [recWWW] [recMX]).conflicting) :=
  ⟨(classify_partition_total [recWWW] [recMX]).1,
    (classify_partition_total [recWWW] [recMX]).2.2 recMX (by decide) (by decide)⟩

/-- C3: `hasDNSRecord` (the spec's `hasMatchingRecord`) is true iff the
required set holds a record agreeing on `(type, name)`, `content` and
`proxied`; the TTL field is never compared — changing the live record's
TTL never changes the answer. -/
theorem hasDNSRecord_iff_ignores_ttl (required : List DNSRecord)
    (live : DNSRecord) :
    (hasDNSRecord required live = true ↔
      ∃ r ∈ required, r.type = live.type ∧ r.name = live.name
        ∧ r.content = live.content ∧ r.proxied = live.proxied)
    ∧ (∀ t : Nat,
        hasDNSRecord required { live with ttl := t } = hasDNSRecord required live) :=
  ⟨hasDNSRecord_eq_true_iff required live, fun _ => rfl⟩

/-- C5: the `'required'` branch of the remediation switch deletes exactly
the conflicting bucket and creates exactly the required records; no
satisfying and no unrelated live record is ever deleted by it. -/
theorem planRequired_deletes_only_conflicting (required live : List DNSRecord) :
    ((remediationPlan live (classify required live).conflicting required
        ApproachChoice.required).deletions = (classify required live).conflicting)
    ∧ ((remediationPlan live (classify required live).conflicting required
        ApproachChoice.required).creations = required)
    ∧ (∀ l, l ∈ (classify required live).satisfying
          ∨ l ∈ (classify required live).unrelated →
        l ∉ (remediationPlan live (classify required live).conflicting required
          ApproachChoice.required).deletions) := by
  refine ⟨rfl, rfl, ?_⟩
  rintro l (hs | hu) hdel
  · obtain ⟨_, hm⟩ := (mem_satisfying_iff required live l).mp hs
    obtain ⟨_, hm', _⟩ := (mem_conflicting_iff required live l).mp hdel
    rw [hm] at hm'
    exact Bool.noConfusion hm'
  · obtain ⟨_, _, hc⟩ := (mem_unrelated_iff required live l).mp hu
    obtain ⟨_, _, hc'⟩ := (mem_conflicting_iff required live l).mp hdel
    rw [hc] at hc'
    exact Bool.false_ne_true hc'

/-- C5 witness: with `required = [recWWW]` and live records
`[recOldTarget, recMX]`, the unrelated MX record is not deleted by the
required-only strategy. -/
theorem planRequired_deletes_only_conflicting_witness :
    recMX ∉ (remediationPlan [recOldTarget, recMX]
      (classify [recWWW] [recOldTarget, recMX]).conflicting [recWWW]
      ApproachChoice.required).deletions :=
  (planRequired_deletes_only_conflicting [recWWW] [recOldTarget, recMX]).2.2
    recMX (Or.inr (by decide))

/-- C6: the `'all'` branch of the remediation switch deletes every live
record — satisfying, conflicting and unrelated alike — and creates every
required record. -/
theorem planReplaceAll_deletes_all_live (required live : List DNSRecord) :
    ((remediationPlan live (classify required live).conflicting required
        ApproachChoice.all).deletions = live)
    ∧ ((remediationPlan live (classify required live).conflicting required
        ApproachChoice.all).creations = required)
    ∧ (∀ l, l ∈ (classify required live).satisfying
          ∨ l ∈ (classify required live).conflicting
          ∨ l ∈ (classify required live).unrelated →
        l ∈ (remediationPlan live (classify required live).conflicting required
          ApproachChoice.all).deletions) := by
  refine ⟨rfl, rfl, ?_⟩
  rintro l (h | h | h)
  · exact ((mem_satisfying_iff required live l).mp h).1
  · exact ((mem_conflicting_iff required live l).mp h).1
  · exact ((mem_unrelated_iff required live l).mp h).1

/-- C6 witness: the replace-all strategy deletes the unrelated MX record of
`live = [recOldTarget, recMX]`. -/
theorem planReplaceAll_deletes_all_live_witness :
    recMX ∈ (remediationPlan [recOldTarget, recMX]
      (classify [recWWW] [recOldTarget, recMX]).conflicting [recWWW]
      ApproachChoice.all).deletions :=
  (planReplaceAll_deletes_all_live [recWWW] [recOldTarget, recMX]).2.2
    recMX (Or.inr (Or.inr (by decide)))

/-- C7 (counterexample): with `required = [recWWW]` and a live record that
is an exact match, `fullyMet = true`, yet neither strategy produces an
empty plan for that hostname: the required-only branch still creates
`recWWW` (the code's own TODO at lines 116–117 acknowledges the resulting
400 failure), and the replace-all branch deletes the exact match. -/
theorem planners_not_empty_on_exact_match_counterexample :
    fullyMet (classify [recWWW] [recWWW]) = true
      ∧ (remediationPlan [recWWW] (classify [recWWW] [recWWW]).conflicting
          [recWWW] ApproachChoice.required).creations = [recWWW]
      ∧ recWWW ∈ (remediationPlan [recWWW] (classify [recWWW] [recWWW]).conflicting
          [recWWW] ApproachChoice.all).deletions := by
  decide

/-- C7 (amended): when some live record exactly matches a required record
and no live record conflicts, classification yields `fullyMet = true` and
the required-only strategy deletes nothing; but both strategies still
create every required record (the matched one included) rather than an
empty plan. -/
theorem exact_match_fullyMet_and_no_deletions (required live : List DNSRecord)
    (hmatch : ∃ l ∈ live, hasDNSRecord required l = true)
    (hnoconf : ∀ l ∈ live, hasConflictingDNSRecord required l = false) :
    fullyMet (classify required live) = true
      ∧ (remediationPlan live (classify required live).conflicting required
          ApproachChoice.required).deletions = []
      ∧ (remediationPlan live (classify required live).conflicting required
          ApproachChoice.required).creations = required
      ∧ (remediationPlan live (classify required live).conflicting required
          ApproachChoice.all).creations = required := by
  have hconf_nil : (classify required live).conflicting = [] := by
    rw [List.eq_nil_iff_forall_not_mem]
    intro x hx
    obtain ⟨hxl, _, hxc⟩ := (mem_conflicting_iff required live x).mp hx
    rw [hnoconf x hxl] at hxc
    exact Bool.false_ne_true hxc
  refine ⟨?_, hconf_nil, rfl, rfl⟩
  rw [fullyMet_eq_true_iff]
  refine ⟨?_, hconf_nil⟩
  obtain ⟨l, hl, hm⟩ := hmatch
  intro hnil
  have : l ∈ (classify required live).satisfying :=
    (mem_satisfying_iff required live l).mpr ⟨hl, hm⟩
  rw [hnil] at this
  exact absurd this (List.not_mem_nil l)

/-- C7 witness: the amended statement applied at
`required = live = [recWWW]`. -/
theorem exact_match_fullyMet_and_no_deletions_witness :
    fullyMet (classify [recWWW] [recWWW]) = true
      ∧ (remediationPlan [recWWW] (classify [recWWW] [recWWW]).conflicting
          [recWWW] ApproachChoice.required).deletions = []
      ∧ (remediationPlan [recWWW] (classify [recWWW] [recWWW]).conflicting
          [recWWW] ApproachChoice.required).creations = [recWWW]
      ∧ (remediationPlan [recWWW] (classify [recWWW] [recWWW]).conflicting
          [recWWW] ApproachChoice.all).creations = [recWWW] :=
  exact_match_fullyMet_and_no_deletions [recWWW] [recWWW]
    ⟨recWWW, by decide, by decide⟩ (by decide)

/-- C8: Scenario A — `required = [recWWW]`, no live records: the
requirement is not met, nothing conflicts, the one required record is
missing, and the required-only strategy (and the handler's empty-zone
confirm flow) creates exactly that record and deletes none. -/
theorem scenarioA_missing_record_plan :
    fullyMet (classify [recWWW] []) = false
      ∧ (classify [recWWW] []).conflicting = []
      ∧ missingRecords [recWWW] [] = [recWWW]
      ∧ remediationPlan [] (classify [recWWW] []).conflicting [recWWW]
          ApproachChoice.required = ⟨[], [recWWW]⟩
      ∧ handlerMutations [recWWW] [] ApproachChoice.required true
          = ⟨[], [recWWW]⟩ := by
  decide

/-- C10: choosing 'Do nothing at this time.' at the remediation prompt
(reachable whenever live records exist) makes the handler issue no
deletion and no creation, whatever the classification outcome. -/
theorem skip_choice_no_mutations (required live : List DNSRecord)
    (hlive : live ≠ []) (confirm : Bool) :
    handlerMutations required live ApproachChoice.skip confirm = ⟨[], []⟩ := by
  rw [handlerMutations, if_pos (List.length_pos.mpr hlive)]
  split <;> rfl

/-- C10 witness: skip on a zone with one conflicting live record mutates
nothing. -/
theorem skip_choice_no_mutations_witness :
    handlerMutations [recWWW] [recOldTarget] ApproachChoice.skip true
      = ⟨[], []⟩ :=
  skip_choice_no_mutations [recWWW] [recOldTarget] (by decide) true

/-! ### Page Rules and the requirement deriver -/

/-- A Page Rule action. Modelled from the spec: an ordered action with an
`id` (e.g. `"forwarding_url"`) and a value; for forwarding actions the
value is a target URL and a 301/302 status code. -/
structure PageRuleAction where
  id : String
  url : String
  statusCode : Nat
deriving DecidableEq, Repr

/-- A Page Rule: a URL target pattern plus an ordered list of actions, a
priority and a status. -/
structure PageRule where
  targetPattern : String
  actions : List PageRuleAction
  priority : Nat
  status : String
deriving DecidableEq, Repr

/-- Modelled from the spec: the hostname component of a Page Rule's target
pattern — the pattern minus a leading wildcard and minus everything from
the first `/` on. -/
def hostnameOfPattern (pattern : String) : String :=
  String.mk ((pattern.data.dropWhile (fun c => c == '*')).takeWhile
    (fun c => c != '/'))

/-- Modelled from the spec: the parent domain of a hostname (everything
after the first dotted label), e.g. `www.example.com → example.com`;
Scenario A pairs the required record for `www.example.com` with content
`example.com`. -/
def parentDomainOf (host : String) : String :=
  match host.data.dropWhile (fun c => c != '.') with
  | [] => host
  | _ :: rest => String.mk rest

/-- Modelled from the spec: `requiredDNSRecordFor(pageRule)` (defined in
`src/lib/shared.js`, which is missing from the sources) synthesizes the
proxied CNAME record the rule's target hostname must resolve through;
deterministic in the target pattern. -/
def requiredDNSRecordFor (pr : PageRule) : DNSRecord :=
  { type := "CNAME"
    name := hostnameOfPattern pr.targetPattern
    content := parentDomainOf (hostnameOfPattern pr.targetPattern)
    ttl := 1
    proxied := true }

/-- Records share a `(type, name)` slot. -/
def recordKeyMatches (a b : DNSRecord) : Bool :=
  a.type == b.type && a.name == b.name

/-- Modelled from the spec: deduplication by `(type, name)`, first
occurrence (rule priority order) wins. -/
def dedupeByTypeName : List DNSRecord → List DNSRecord
  | [] => []
  | r :: rs => r :: (dedupeByTypeName rs).filter (fun x => !(recordKeyMatches r x))

/-- Modelled from the spec: `buildRequiredDNSRecordsForPagerules` (defined
in `src/lib/shared.js`, which is missing from the sources) maps every Page
Rule through `requiredDNSRecordFor` and deduplicates by `(type, name)`,
keeping the first occurrence. -/
def buildRequiredDNSRecordsForPagerules (pagerules : List PageRule) :
    List DNSRecord :=
  dedupeByTypeName (pagerules.map requiredDNSRecordFor)

theorem dedupeByTypeName_pairwise (l : List DNSRecord) :
    (dedupeByTypeName l).Pairwise
      (fun a b => ¬(a.type = b.type ∧ a.name = b.name)) := by
  induction l with
  | nil => exact List.Pairwise.nil
  | cons r rs ih =>
    rw [dedupeByTypeName]
    refine List.pairwise_cons.mpr ⟨?_, ih.filter _⟩
    intro x hx hkey
    have hpred := (List.mem_filter.mp hx).2
    simp [recordKeyMatches, hkey.1, hkey.2] at hpred

/-- C4: the derived requirement set holds at most one record per
`(type, name)` pair, and when two Page Rules target the same hostname, the
record of the first rule in priority order is the one kept. -/
theorem buildRequiredDNSRecords_dedup_first_wins :
    (∀ pagerules : List PageRule,
      (buildRequiredDNSRecordsForPagerules pagerules).Pairwise
        (fun a b => ¬(a.type = b.type ∧ a.name = b.name)))
    ∧ (∀ p1 p2 : PageRule,
        hostnameOfPattern p1.targetPattern = hostnameOfPattern p2.targetPattern →
          buildRequiredDNSRecordsForPagerules [p1, p2]
            = [requiredDNSRecordFor p1]) := by
  constructor
  · intro pagerules
    exact dedupeByTypeName_pairwise _
  · intro p1 p2 h
    have hkey : recordKeyMatches (requiredDNSRecordFor p1)
        (requiredDNSRecordFor p2) = true := by
      simp [recordKeyMatches, requiredDNSRecordFor, h]
    simp [buildRequiredDNSRecordsForPagerules, dedupeByTypeName,
      List.filter, hkey]

/-- Two Page Rules whose patterns both name the hostname
`shop.example.com` (Scenario D). -/
def prShopA : PageRule := ⟨"*shop.example.com/a", [], 1, "active"⟩

def prShopB : PageRule := ⟨"shop.example.com/b", [], 2, "active"⟩

/-- C4 witness: the two Scenario D rules yield exactly one required
record, the first rule's. -/
theorem buildRequiredDNSRecords_dedup_first_wins_witness :
    buildRequiredDNSRecordsForPagerules [prShopA, prShopB]
      = [requiredDNSRecordFor prShopA] :=
  buildRequiredDNSRecords_dedup_first_wins.2 prShopA prShopB (by decide)

/-! ### Redirect / Page Rule conversion -/

/-- A redirect description entry: `{from, to, type}`. -/
structure Redirect where
  «from» : String
  «to» : String
  type : String
deriving DecidableEq, Repr

/-- Modelled from the spec: the 301/302 status code derived from a
redirect's `type` (`"permanent"` → 301, otherwise 302). -/
def statusCodeForRedirectType (t : String) : Nat :=
  if t == "permanent" then 301 else 302

/-- Modelled from the spec: the redirect `type` read back from a
forwarding action's status code. -/
def redirectTypeForStatusCode (code : Nat) : String :=
  if code == 301 then "permanent" else "temporary"

/-- Modelled from the spec: `convertRedirectToPageRule(redirect,
domainPattern)` (defined in `src/lib/shared.js`, which is missing from the
sources; called at `src/commands/dns.js` line 283 with the pattern
`*<domain>`) builds a Page Rule whose target pattern combines the domain
pattern with `redirect.from` and whose single `forwarding_url` action
encodes `redirect.«to»` and the status code for `redirect.type`. -/
def convertRedirectToPageRule (redirect : Redirect) (domainPattern : String) :
    PageRule :=
  { targetPattern := domainPattern ++ redirect.«from»
    actions := [⟨"forwarding_url", redirect.«to»,
      statusCodeForRedirectType redirect.type⟩]
    priority := 1
    status := "active" }

/-- The path component of a target pattern: everything from the first `/`
on. -/
def pathPartOfPattern (pattern : String) : String :=
  String.mk (pattern.data.dropWhile (fun c => c != '/'))

/-- Modelled from the spec: `convertPageRulesToRedirects(pageRules)`
(defined in `src/lib/shared.js`, which is missing from the sources) is the
inverse mapping used for display/export; a rule without a recognized
forwarding action surfaces a distinct `"unsupported"` marker. -/
def convertPageRulesToRedirects (pagerules : List PageRule) : List Redirect :=
  pagerules.map (fun pr =>
    match pr.actions.find? (fun a => a.id == "forwarding_url") with
    | some a => ⟨pathPartOfPattern pr.targetPattern, a.url,
        redirectTypeForStatusCode a.statusCode⟩
    | none => ⟨pathPartOfPattern pr.targetPattern, "", "unsupported"⟩)

theorem dropWhile_append_of_forall {α : Type} (p : α → Bool)
    (l1 l2 : List α) (h : ∀ a ∈ l1, p a = true) :
    (l1 ++ l2).dropWhile p = l2.dropWhile p := by
  induction l1 with
  | nil => rfl
  | cons x xs ih =>
    rw [List.cons_append, List.dropWhile_cons,
      if_pos (h x (List.mem_cons_self x xs))]
    exact ih (fun a ha => h a (List.mem_cons_of_mem x ha))

theorem string_append_data (a b : String) : (a ++ b).data = a.data ++ b.data :=
  rfl

/-- C9: converting a well-formed redirect (a `from` that is a path starting
with `/`, a domain pattern without `/`, a recognized `type`) to a Page Rule
and back reproduces its `from`, `to` and `type` — the whole entry. -/
theorem redirect_pageRule_roundTrip (r : Redirect) (domainPattern : String)
    (hd : ∀ c ∈ domainPattern.data, c ≠ '/')
    (hf : ∃ rest, r.«from».data = '/' :: rest)
    (ht : r.type = "permanent" ∨ r.type = "temporary") :
    convertPageRulesToRedirects [convertRedirectToPageRule r domainPattern]
      = [r] := by
  obtain ⟨rest, hrest⟩ := hf
  have hpath : pathPartOfPattern (domainPattern ++ r.«from») = r.«from» := by
    rw [pathPartOfPattern, string_append_data,
      dropWhile_append_of_forall _ _ _
        (fun a ha => by simpa using hd a ha),
      hrest, List.dropWhile_cons, if_neg (by decide), ← hrest]
  have htype : redirectTypeForStatusCode (statusCodeForRedirectType r.type)
      = r.type := by
    rcases ht with h | h <;> rw [h] <;> decide
  simp only [convertPageRulesToRedirects, List.map, convertRedirectToPageRule]
  rw [List.find?_cons_of_pos _ (by rfl)]
  dsimp only
  rw [hpath, htype]

/-- C9 witness: round trip of the redirect
`{from := "/old", to := "https://example.com/new", type := "permanent"}`
over the domain pattern `*example.com`. -/
theorem redirect_pageRule_roundTrip_witness :
    convertPageRulesToRedirects
        [convertRedirectToPageRule
          ⟨"/old", "https://example.com/new", "permanent"⟩ "*example.com"]
      = [⟨"/old", "https://example.com/new", "permanent"⟩] :=
  redirect_pageRule_roundTrip
    ⟨"/old", "https://example.com/new", "permanent"⟩ "*example.com"
    (by decide) ⟨"old".data, rfl⟩ (Or.inl rfl)

end WebRedirects
